import Mathlib

/-!
Shallow embedding of the trips API (src/main.py): a FastAPI endpoint
`GET /trips` over a local sqlite file, with query-parameter validation,
string-assembled SQL, pagination metadata, a startup configuration check
and a per-address rate limit.  Definitions mirror the source; theorems
settle the specification claims.
-/

namespace TripsApi

/-- Allow-list of sortable columns (src/main.py line 29, `VALID_SORT_COLUMNS`). -/
def VALID_SORT_COLUMNS : List String :=
  ["pickup_datetime", "trip_miles", "trip_duration_minutes", "PULocationID", "DOLocationID"]

/-- Fixed table name (src/main.py line 18, `TABLE_NAME`). -/
def TABLE_NAME : String := "trips"

/-- A row of the trips table, restricted to the columns the endpoint can
sort or filter on; numeric values modelled as integers. -/
structure TripRow where
  pickup_datetime : Int
  trip_miles : Int
  trip_duration_minutes : Int
  PULocationID : Int
  DOLocationID : Int
deriving DecidableEq, Repr

/-- Raw query parameters of a request; `none` means the parameter is
absent from the query string (FastAPI then applies the declared default). -/
structure RawParams where
  page : Option Int
  limit : Option Int
  PULocationID : Option Int
  sort_by : Option String
  order : Option String
deriving DecidableEq, Repr

/-- Parameters after FastAPI validation (src/main.py lines 57-61). -/
structure QueryParams where
  page : Int
  limit : Int
  PULocationID : Option Int
  sort_by : Option String
  order : String
deriving DecidableEq, Repr

/-- The `ge=1` constraint on the optional `PULocationID` parameter
(src/main.py line 59): absent is fine, present must be at least 1. -/
def puOk : Option Int → Bool
  | none => true
  | some v => 1 ≤ v

/-- The regex constraint `^(asc|desc)$` on `order` (src/main.py line 61):
an exact, case-sensitive match against one of the two literals. -/
def orderPatternOk (o : String) : Bool := o = "asc" || o = "desc"

/-- FastAPI parameter validation for `get_trips` (src/main.py lines 57-61):
defaults `page=1`, `limit=1000`, `order="asc"`; constraints `page >= 1`,
`1 <= limit <= 10000`, `PULocationID >= 1` when present, and the `order`
pattern.  On failure the framework rejects the request with a client
error naming the offending field, before the handler body runs. -/
def parseParams (raw : RawParams) : Except String QueryParams :=
  if raw.page.getD 1 < 1 then Except.error "page"
  else if raw.limit.getD 1000 < 1 then Except.error "limit"
  else if 10000 < raw.limit.getD 1000 then Except.error "limit"
  else if ¬ puOk raw.PULocationID then Except.error "PULocationID"
  else if ¬ orderPatternOk (raw.order.getD "asc") then Except.error "order"
  else Except.ok
    ⟨raw.page.getD 1, raw.limit.getD 1000, raw.PULocationID, raw.sort_by, raw.order.getD "asc"⟩

/-- A query executed against the sqlite file: its SQL text and the
bound parameter values (src/main.py lines 97 and 104). -/
structure ExecutedQuery where
  sql : String
  params : List Int
deriving DecidableEq, Repr

/-- The success payload (src/main.py lines 107-115). -/
structure TripsResponse where
  total_records : Nat
  total_pages : Nat
  current_page : Int
  limit : Int
  data : List TripRow
deriving DecidableEq, Repr

/-- The observable outcome of one request. -/
inductive Outcome where
  | rateLimited
  | validationError (field : String)
  | httpError (status : Nat) (detail : String)
  | success (resp : TripsResponse)
deriving DecidableEq, Repr

/-- A full run of the endpoint: its outcome, whether a connection to the
storage file was opened (src/main.py line 89), and the queries executed
through it, in order. -/
structure HandlerRun where
  outcome : Outcome
  connectionOpened : Bool
  queries : List ExecutedQuery
deriving DecidableEq, Repr

/-- The `WHERE` conditions list (src/main.py lines 68-74): a single
optional equality filter on `PULocationID`. -/
def conditionsOf : Option Int → List String
  | none => []
  | some _ => ["PULocationID = ?"]

/-- The bound values matching `conditionsOf` (src/main.py lines 69-74). -/
def valuesOf : Option Int → List Int
  | none => []
  | some v => [v]

/-- The data query before pagination (src/main.py lines 67-77):
`SELECT * FROM trips` plus the joined `WHERE` clause when present. -/
def baseQueryOf (pu : Option Int) : String :=
  let base0 := "SELECT * FROM " ++ TABLE_NAME
  if conditionsOf pu ≠ [] then
    base0 ++ " WHERE " ++ String.intercalate " AND " (conditionsOf pu)
  else base0

/-- The count query (src/main.py lines 93-95). -/
def countQueryOf (pu : Option Int) : String :=
  let count0 := "SELECT COUNT(*) as total FROM " ++ TABLE_NAME
  if conditionsOf pu ≠ [] then
    count0 ++ " WHERE " ++ String.intercalate " AND " (conditionsOf pu)
  else count0

/-- Python `str.lower()` on a single ASCII character. -/
def asciiLowerChar (c : Char) : Char :=
  if 'A' ≤ c ∧ c ≤ 'Z' then Char.ofNat (c.toNat + 32) else c

/-- Python `str.upper()` on a single ASCII character. -/
def asciiUpperChar (c : Char) : Char :=
  if 'a' ≤ c ∧ c ≤ 'z' then Char.ofNat (c.toNat - 32) else c

/-- Python `str.lower()` (ASCII range, which covers the values here). -/
def pyLower (s : String) : String := ⟨s.data.map asciiLowerChar⟩

/-- Python `str.upper()` (ASCII range, which covers the values here). -/
def pyUpper (s : String) : String := ⟨s.data.map asciiUpperChar⟩

/-- Row-level meaning of the `WHERE` clause: with no filter every row
matches, otherwise the row's pickup location must equal the bound value. -/
def rowMatches (pu : Option Int) (r : TripRow) : Bool :=
  match pu with
  | none => true
  | some v => r.PULocationID = v

/-- The sort key selected by a validated `sort_by` column name. -/
def sortKey (col : String) (r : TripRow) : Int :=
  if col = "pickup_datetime" then r.pickup_datetime
  else if col = "trip_miles" then r.trip_miles
  else if col = "trip_duration_minutes" then r.trip_duration_minutes
  else if col = "PULocationID" then r.PULocationID
  else r.DOLocationID

/-- Meaning of `ORDER BY col dir`: a stable sort of the result set,
descending exactly when the interpolated direction is `DESC`
(src/main.py line 85 interpolates `order.upper()`). -/
def orderRows (col ord : String) (rows : List TripRow) : List TripRow :=
  if pyLower ord = "desc" then
    List.insertionSort (fun a b => sortKey col b ≤ sortKey col a) rows
  else
    List.insertionSort (fun a b => sortKey col a ≤ sortKey col b) rows

/-- `math.ceil(total_records/limit)` (src/main.py line 99) over the
validated positive `limit`, as exact ceiling division on naturals. -/
def totalPagesOf (total : Nat) (limit : Int) : Nat :=
  (total + (limit.toNat - 1)) / limit.toNat

/-- Everything behind `aiosqlite.connect` (src/main.py lines 89-115):
run the count query, compute the page count, run the paginated data
query (`ORDER BY` applied before `LIMIT ? OFFSET ?`), and assemble the
response.  `sortSpec` is the validated column/direction pair, `none`
when `sort_by` was omitted. -/
def runQueries (db : List TripRow) (page limit : Int) (pu : Option Int)
    (baseQuery : String) (sortSpec : Option (String × String)) : HandlerRun :=
  let offset := (page - 1) * limit
  let values := valuesOf pu
  let filtered := List.filter (rowMatches pu) db
  let total_records := filtered.length
  let sorted := match sortSpec with
    | none => filtered
    | some cd => orderRows cd.1 cd.2 filtered
  let data := (sorted.drop offset.toNat).take limit.toNat
  { outcome := Outcome.success
      { total_records := total_records
        total_pages := totalPagesOf total_records limit
        current_page := page
        limit := limit
        data := data }
    connectionOpened := true
    queries :=
      [⟨countQueryOf pu, values⟩,
       ⟨baseQuery ++ " " ++ "LIMIT ? OFFSET ?", values ++ [limit, offset]⟩] }

/-- The body of `get_trips` after FastAPI validation (src/main.py
lines 64-115): build the filtered query, validate `sort_by` against the
allow-list and `order` case-insensitively (raising HTTP 400 before any
connection is opened), then query and respond. -/
def getTripsBody (p : QueryParams) (db : List TripRow) : HandlerRun :=
  match p.sort_by with
  | none => runQueries db p.page p.limit p.PULocationID (baseQueryOf p.PULocationID) none
  | some col =>
    if col ∈ VALID_SORT_COLUMNS then
      if pyLower p.order ∈ (["asc", "desc"] : List String) then
        runQueries db p.page p.limit p.PULocationID
          (baseQueryOf p.PULocationID ++ " ORDER BY " ++ col ++ " " ++ pyUpper p.order)
          (some (col, p.order))
      else
        { outcome := Outcome.httpError 400 "Invalid order, must be \x27asc\x27 or \x27desc\x27"
          connectionOpened := false
          queries := [] }
    else
      { outcome := Outcome.httpError 400
          "Invalid sort_by column. Valid options are: \x7bVALID_SORT_COLUMNS\x7d"
        connectionOpened := false
        queries := [] }

/-- One request through FastAPI validation and the handler body. -/
def handleTripsRequest (raw : RawParams) (db : List TripRow) : HandlerRun :=
  match parseParams raw with
  | Except.error field =>
      { outcome := Outcome.validationError field, connectionOpened := false, queries := [] }
  | Except.ok p => getTripsBody p db

/-- Modelled from the spec: the slowapi limiter behind
`@limiter.limit("100/minute")` (src/main.py lines 24-26 and 53) is a
third-party library whose internals are not in src/; the spec describes
it as a rolling 60-second window keyed by client address.  A prior hit
is one recorded request from the same address whose timestamp lies in
the 60 seconds up to now. -/
structure RequestEvent where
  addr : String
  time : Nat
deriving DecidableEq, Repr

/-- Modelled from the spec: the number of recorded hits from `addr`
within the rolling 60-second window ending at time `t`. -/
def recentHits (history : List RequestEvent) (addr : String) (t : Nat) : Nat :=
  (history.filter (fun e => e.addr = addr && e.time ≤ t && t < e.time + 60)).length

/-- Modelled from the spec: the rate-limited endpoint.  A request from
`addr` at time `t` with 100 or more prior hits in its window is the
101st or later and short-circuits to a 429-equivalent outcome with no
further work; otherwise the request is handled normally. -/
def tripsEndpoint (history : List RequestEvent) (addr : String) (t : Nat)
    (raw : RawParams) (db : List TripRow) : HandlerRun :=
  if 100 ≤ recentHits history addr t then
    { outcome := Outcome.rateLimited, connectionOpened := false, queries := [] }
  else handleTripsRequest raw db

/-- Result of module import / process startup. -/
inductive StartupResult where
  | started
  | configError (msg : String)
deriving DecidableEq, Repr

/-- Startup configuration check (src/main.py lines 17-21):
`os.getenv("DATABASE_URL")` is `None` when the variable is unset, and
any falsy value (unset or empty) raises `ValueError` at import time,
before the app can serve anything. -/
def startProcess (databaseUrl : Option String) : StartupResult :=
  match databaseUrl with
  | none => StartupResult.configError "DATABASE_URL environment variable is not set."
  | some s =>
    if s = "" then StartupResult.configError "DATABASE_URL environment variable is not set."
    else StartupResult.started

/-- A request is served only by a process that started successfully:
`none` when startup aborted, so no request is ever answered. -/
def serveRequest (databaseUrl : Option String) (history : List RequestEvent)
    (addr : String) (t : Nat) (raw : RawParams) (db : List TripRow) : Option HandlerRun :=
  match startProcess databaseUrl with
  | StartupResult.configError _ => none
  | StartupResult.started => some (tripsEndpoint history addr t raw db)

/-- Substring test on character lists, used to inspect error messages. -/
def hasSubList (pat : List Char) : List Char → Bool
  | [] => pat.isEmpty
  | c :: rest => List.isPrefixOf pat (c :: rest) || hasSubList pat rest

/-- Whether `pat` occurs as a contiguous substring of `s`. -/
def strContains (s pat : String) : Bool := hasSubList pat.data s.data

/-- A fixed sample row used for concrete witnesses. -/
def sampleRow : TripRow := ⟨100, 7, 25, 138, 42⟩

/-! Helper lemmas shared by several claim proofs. -/

/-- Inversion of successful parameter validation: the validated record
carries the raw values (with their defaults) and satisfies every
declared bound. -/
theorem parseParams_ok_fields (raw : RawParams) (p : QueryParams)
    (h : parseParams raw = Except.ok p) :
    p.page = raw.page.getD 1 ∧ p.limit = raw.limit.getD 1000 ∧
    p.PULocationID = raw.PULocationID ∧ p.sort_by = raw.sort_by ∧
    p.order = raw.order.getD "asc" ∧
    1 ≤ p.page ∧ 1 ≤ p.limit ∧ p.limit ≤ 10000 ∧
    puOk raw.PULocationID = true ∧ orderPatternOk p.order = true := by
  unfold parseParams at h
  split_ifs at h
  simp only [Except.ok.injEq] at h
  subst h
  exact ⟨rfl, rfl, rfl, rfl, rfl, by dsimp only; omega, by dsimp only; omega,
    by dsimp only; omega, by assumption, by assumption⟩

/-- Sorting the page never changes how many rows there are. -/
theorem orderRows_length (col ord : String) (rows : List TripRow) :
    (orderRows col ord rows).length = rows.length := by
  unfold orderRows
  split <;> exact List.length_insertionSort _ rows

/-- C1: a request whose `sort_by` is present but outside the 5-value
allow-list never opens a connection and never executes a query, and
whenever it reaches the handler body (all framework-validated
parameters in range) it is rejected with HTTP 400. -/
theorem C1_invalid_sort_by_rejected_without_query
    (raw : RawParams) (db : List TripRow) (col : String)
    (hcol : raw.sort_by = some col) (hbad : col ∉ VALID_SORT_COLUMNS) :
    (handleTripsRequest raw db).connectionOpened = false ∧
    (handleTripsRequest raw db).queries = [] ∧
    (∀ p, parseParams raw = Except.ok p →
      (handleTripsRequest raw db).outcome =
        Outcome.httpError 400
          "Invalid sort_by column. Valid options are: \x7bVALID_SORT_COLUMNS\x7d") := by
  cases hp : parseParams raw with
  | error f =>
    refine ⟨by simp [handleTripsRequest, hp], by simp [handleTripsRequest, hp], ?_⟩
    intro p h
    exact absurd h (by simp)
  | ok p =>
    have hf := parseParams_ok_fields raw p hp
    have hsb : p.sort_by = some col := by rw [hf.2.2.2.1, hcol]
    have hrun : handleTripsRequest raw db =
        { outcome := Outcome.httpError 400
            "Invalid sort_by column. Valid options are: \x7bVALID_SORT_COLUMNS\x7d"
          connectionOpened := false
          queries := [] } := by
      unfold handleTripsRequest
      rw [hp]
      unfold getTripsBody
      simp only [hsb, hbad, if_false]
    rw [hrun]
    exact ⟨rfl, rfl, fun _ _ => rfl⟩

/-- C1 witness: the concrete request `sort_by=foo` (all other
parameters at their defaults) against a one-row table. -/
theorem C1_witness :
    (handleTripsRequest ⟨none, none, none, some "foo", none⟩ [sampleRow]).connectionOpened = false ∧
    (handleTripsRequest ⟨none, none, none, some "foo", none⟩ [sampleRow]).queries = [] ∧
    (∀ p, parseParams ⟨none, none, none, some "foo", none⟩ = Except.ok p →
      (handleTripsRequest ⟨none, none, none, some "foo", none⟩ [sampleRow]).outcome =
        Outcome.httpError 400
          "Invalid sort_by column. Valid options are: \x7bVALID_SORT_COLUMNS\x7d") :=
  C1_invalid_sort_by_rejected_without_query ⟨none, none, none, some "foo", none⟩ [sampleRow]
    "foo" rfl (by decide)

/-- C4 counterexample: the claim says order matching is
case-insensitive, so "ASC" (whose lowercasing is "asc") would be
accepted; the code's `pattern="^(asc|desc)$"` constraint is
case-sensitive and rejects "ASC" with a client validation error, while
the exact lowercase "asc" is accepted. -/
theorem C4_counterexample_uppercase_order_rejected :
    pyLower "ASC" = "asc" ∧
    (handleTripsRequest ⟨none, none, none, none, some "ASC"⟩ [sampleRow]).outcome =
      Outcome.validationError "order" ∧
    (handleTripsRequest ⟨none, none, none, none, some "asc"⟩ [sampleRow]).outcome ≠
      Outcome.validationError "order" :=
  ⟨by decide, by decide, by decide⟩

/-- C4 amended: with the other parameters in range, the `order`
parameter is accepted if and only if it is exactly the lowercase
literal "asc" or "desc" (the `^(asc|desc)$` pattern is case-sensitive);
any other value, including "ASC" and "Desc", is rejected with a client
error naming the order field. -/
theorem C4_order_must_be_lowercase_literal
    (raw : RawParams) (o : String) (ho : raw.order = some o)
    (hpage : 1 ≤ raw.page.getD 1)
    (hlim1 : 1 ≤ raw.limit.getD 1000) (hlim2 : raw.limit.getD 1000 ≤ 10000)
    (hpu : puOk raw.PULocationID = true) :
    ((∃ p, parseParams raw = Except.ok p) ↔ (o = "asc" ∨ o = "desc")) ∧
    (¬ (o = "asc" ∨ o = "desc") → parseParams raw = Except.error "order") := by
  have h1 : ¬ (raw.page.getD 1 < 1) := by omega
  have h2 : ¬ (raw.limit.getD 1000 < 1) := by omega
  have h3 : ¬ (10000 < raw.limit.getD 1000) := by omega
  by_cases hoo : o = "asc" ∨ o = "desc"
  · have hop : orderPatternOk (raw.order.getD "asc") = true := by
      rcases hoo with h | h <;> simp [orderPatternOk, ho, h]
    constructor
    · simp only [parseParams, h1, h2, h3, hpu, hop, if_false, not_true_eq_false,
        not_false_eq_true, if_true]
      exact ⟨fun _ => hoo, fun _ => ⟨_, rfl⟩⟩
    · intro h
      exact absurd hoo h
  · have hop : orderPatternOk (raw.order.getD "asc") = false := by
      push_neg at hoo
      simp [orderPatternOk, ho, hoo.1, hoo.2]
    constructor
    · simp only [parseParams, h1, h2, h3, hpu, hop, if_false, not_true_eq_false,
        not_false_eq_true, if_true, Bool.false_eq_true]
      exact ⟨fun ⟨p, h⟩ => absurd h (by simp), fun h => absurd h hoo⟩
    · intro _
      simp only [parseParams, h1, h2, h3, hpu, hop, if_false, not_true_eq_false,
        not_false_eq_true, if_true, Bool.false_eq_true]

/-- C4 witness: the amended statement at the concrete value "Desc". -/
theorem C4_witness :
    ((∃ p, parseParams ⟨none, none, none, none, some "Desc"⟩ = Except.ok p) ↔
      ("Desc" = "asc" ∨ "Desc" = "desc")) ∧
    (¬ ("Desc" = "asc" ∨ "Desc" = "desc") →
      parseParams ⟨none, none, none, none, some "Desc"⟩ = Except.error "order") :=
  C4_order_must_be_lowercase_literal ⟨none, none, none, none, some "Desc"⟩ "Desc"
    rfl (by decide) (by decide) (by decide) (by decide)

/-- C5: the HTTP 400 detail for an invalid `sort_by` is the literal
text of a format placeholder, because line 82 of src/main.py lacks the
f-string prefix: the message does name the `sort_by` field, but it does
not list any of the five allowed column names. -/
theorem C5_detail_is_unexpanded_placeholder :
    (handleTripsRequest ⟨none, none, none, some "bogus", none⟩ [sampleRow]).outcome =
      Outcome.httpError 400
        "Invalid sort_by column. Valid options are: \x7bVALID_SORT_COLUMNS\x7d" ∧
    strContains "Invalid sort_by column. Valid options are: \x7bVALID_SORT_COLUMNS\x7d"
      "sort_by" = true ∧
    VALID_SORT_COLUMNS.all
      (fun c => !(strContains
        "Invalid sort_by column. Valid options are: \x7bVALID_SORT_COLUMNS\x7d" c)) = true :=
  ⟨by decide, by decide, by decide⟩

/-- C6: successful validation yields exactly the declared defaults and
bounds (`page >= 1` defaulting to 1, `limit` in [1,10000] defaulting to
1000, `PULocationID >= 1` when present), and a validation failure is
answered with a client error naming the field, with no connection
opened and no query executed. -/
theorem C6_validator_bounds_and_rejection
    (raw : RawParams) (db : List TripRow) :
    (∀ p, parseParams raw = Except.ok p →
      p.page = raw.page.getD 1 ∧ p.limit = raw.limit.getD 1000 ∧
      1 ≤ p.page ∧ 1 ≤ p.limit ∧ p.limit ≤ 10000 ∧
      (∀ v, raw.PULocationID = some v → 1 ≤ v)) ∧
    (∀ f, parseParams raw = Except.error f →
      (handleTripsRequest raw db).outcome = Outcome.validationError f ∧
      (handleTripsRequest raw db).connectionOpened = false ∧
      (handleTripsRequest raw db).queries = []) := by
  constructor
  · intro p hp
    have hf := parseParams_ok_fields raw p hp
    refine ⟨hf.1, hf.2.1, hf.2.2.2.2.2.1, hf.2.2.2.2.2.2.1, hf.2.2.2.2.2.2.2.1, ?_⟩
    intro v hv
    have hpu := hf.2.2.2.2.2.2.2.2.1
    rw [hv] at hpu
    simpa [puOk] using hpu
  · intro f hf
    refine ⟨?_, ?_, ?_⟩ <;> simp [handleTripsRequest, hf]

/-- C6 witness: `page=0` is rejected as a client error on the page
field with no query executed. -/
theorem C6_witness :
    (handleTripsRequest ⟨some 0, none, none, none, none⟩ [sampleRow]).outcome =
      Outcome.validationError "page" ∧
    (handleTripsRequest ⟨some 0, none, none, none, none⟩ [sampleRow]).connectionOpened = false ∧
    (handleTripsRequest ⟨some 0, none, none, none, none⟩ [sampleRow]).queries = [] :=
  (C6_validator_bounds_and_rejection ⟨some 0, none, none, none, none⟩ [sampleRow]).2
    "page" rfl

/-- C7: with `DATABASE_URL` unset the module-level check raises, the
process never starts, and consequently no request is ever served. -/
theorem C7_unset_database_url_aborts_startup :
    startProcess none =
      StartupResult.configError "DATABASE_URL environment variable is not set." ∧
    ∀ history addr t raw db, serveRequest none history addr t raw db = none :=
  ⟨rfl, fun _ _ _ _ _ => rfl⟩

/-- C8: a request from an address that already has 100 hits inside its
rolling 60-second window is answered with the rate-limit outcome, with
no validation, no connection and no query. -/
theorem C8_rate_limited_request_does_no_work
    (history : List RequestEvent) (addr : String) (t : Nat)
    (raw : RawParams) (db : List TripRow)
    (h : 100 ≤ recentHits history addr t) :
    tripsEndpoint history addr t raw db =
      { outcome := Outcome.rateLimited, connectionOpened := false, queries := [] } := by
  unfold tripsEndpoint
  rw [if_pos h]

/-- Ceiling division as the code computes it, `(a + (b-1)) / b` on
naturals, agrees with the rational ceiling of `a / b`. -/
theorem ceil_formula (a b : Nat) (hb : 0 < b) :
    (((a + (b - 1)) / b : Nat) : ℤ) = ⌈(a : ℚ) / (b : ℚ)⌉ := by
  have hmod := Nat.div_add_mod (a + (b - 1)) b
  have hlt : (a + (b - 1)) % b < b := Nat.mod_lt _ hb
  have hub : a ≤ b * ((a + (b - 1)) / b) := by omega
  have hlb : b * ((a + (b - 1)) / b) < a + b := by omega
  set q := (a + (b - 1)) / b with hqdef
  have hbq : (0 : ℚ) < (b : ℚ) := by exact_mod_cast hb
  have hubq : (a : ℚ) ≤ (b : ℚ) * (q : ℚ) := by exact_mod_cast hub
  have hlbq : (b : ℚ) * (q : ℚ) < (a : ℚ) + (b : ℚ) := by exact_mod_cast hlb
  symm
  rw [Int.ceil_eq_iff]
  refine ⟨?_, ?_⟩
  · show ((q : ℤ) : ℚ) - 1 < (a : ℚ) / (b : ℚ)
    rw [Int.cast_natCast, lt_div_iff₀ hbq]
    nlinarith [hlbq]
  · show (a : ℚ) / (b : ℚ) ≤ ((q : ℤ) : ℚ)
    rw [Int.cast_natCast, div_le_iff₀ hbq]
    nlinarith [hubq]

/-- Inversion of a successful run: the handler got past validation and
the allow-list checks, opened one connection, executed exactly the
count query followed by the paginated data query (bound parameters:
the optional filter value, then limit, then offset), and built the
response from the filtered row set; `rows` is that set, possibly
reordered by the ORDER BY clause, so its length is unchanged. -/
theorem handle_success_run
    (raw : RawParams) (db : List TripRow) (p : QueryParams) (resp : TripsResponse)
    (hp : parseParams raw = Except.ok p)
    (hok : (handleTripsRequest raw db).outcome = Outcome.success resp) :
    ∃ (rows : List TripRow) (sql : String),
      rows.length = (List.filter (rowMatches p.PULocationID) db).length ∧
      handleTripsRequest raw db =
        { outcome := Outcome.success
            { total_records := (List.filter (rowMatches p.PULocationID) db).length
              total_pages :=
                totalPagesOf (List.filter (rowMatches p.PULocationID) db).length p.limit
              current_page := p.page
              limit := p.limit
              data := (rows.drop ((p.page - 1) * p.limit).toNat).take p.limit.toNat }
          connectionOpened := true
          queries := [⟨countQueryOf p.PULocationID, valuesOf p.PULocationID⟩,
                      ⟨sql, valuesOf p.PULocationID ++ [p.limit, (p.page - 1) * p.limit]⟩] } := by
  unfold handleTripsRequest at hok ⊢
  rw [hp] at hok ⊢
  unfold getTripsBody at hok ⊢
  cases hsb : p.sort_by with
  | none =>
    simp only [hsb] at hok ⊢
    exact ⟨List.filter (rowMatches p.PULocationID) db,
      baseQueryOf p.PULocationID ++ " " ++ "LIMIT ? OFFSET ?", rfl, by simp [runQueries]⟩
  | some col =>
    simp only [hsb] at hok ⊢
    by_cases hcol : col ∈ VALID_SORT_COLUMNS
    · by_cases hord : pyLower p.order ∈ (["asc", "desc"] : List String)
      · simp only [hcol, hord, if_true] at hok ⊢
        exact ⟨orderRows col p.order (List.filter (rowMatches p.PULocationID) db),
          baseQueryOf p.PULocationID ++ " ORDER BY " ++ col ++ " " ++ pyUpper p.order
            ++ " " ++ "LIMIT ? OFFSET ?",
          orderRows_length _ _ _, by simp [runQueries]⟩
      · simp only [hcol, hord, if_true, if_false] at hok
        exact absurd hok (by simp)
    · simp only [hcol, if_false] at hok
      exact absurd hok (by simp)

/-- C2: for every request that passes validation and succeeds,
total_pages equals the ceiling of total_records / limit, where
total_records is the count-query scalar over the filtered table; the
exact-multiple and zero-record boundary cases are instances. -/
theorem C2_total_pages_is_ceiling
    (raw : RawParams) (db : List TripRow) (p : QueryParams) (resp : TripsResponse)
    (hp : parseParams raw = Except.ok p)
    (hok : (handleTripsRequest raw db).outcome = Outcome.success resp) :
    resp.total_records = (List.filter (rowMatches p.PULocationID) db).length ∧
    resp.limit = p.limit ∧
    (resp.total_pages : ℤ) = ⌈(resp.total_records : ℚ) / (resp.limit : ℚ)⌉ := by
  obtain ⟨rows, sql, hlen, hrun⟩ := handle_success_run raw db p resp hp hok
  rw [hrun] at hok
  simp only [Outcome.success.injEq] at hok
  subst hok
  have hlim : 1 ≤ p.limit := (parseParams_ok_fields raw p hp).2.2.2.2.2.2.1
  refine ⟨rfl, rfl, ?_⟩
  dsimp only
  have hb : 0 < p.limit.toNat := by omega
  have hcast : ((p.limit.toNat : ℕ) : ℚ) = ((p.limit : ℤ) : ℚ) := by
    have h := Int.toNat_of_nonneg (show (0 : ℤ) ≤ p.limit by omega)
    exact_mod_cast congrArg (fun z => ((z : ℤ) : ℚ)) h
  unfold totalPagesOf
  rw [← hcast]
  exact ceil_formula _ _ hb

/-- C2 witness: one row, default limit 1000, so one page. -/
theorem C2_witness :
    (⟨1, 1, 1, 1000, [sampleRow]⟩ : TripsResponse).total_records =
      (List.filter (rowMatches none) [sampleRow]).length ∧
    (⟨1, 1, 1, 1000, [sampleRow]⟩ : TripsResponse).limit = (1000 : ℤ) ∧
    ((⟨1, 1, 1, 1000, [sampleRow]⟩ : TripsResponse).total_pages : ℤ) =
      ⌈((⟨1, 1, 1, 1000, [sampleRow]⟩ : TripsResponse).total_records : ℚ) /
        ((⟨1, 1, 1, 1000, [sampleRow]⟩ : TripsResponse).limit : ℚ)⌉ :=
  C2_total_pages_is_ceiling ⟨none, none, none, none, none⟩ [sampleRow]
    ⟨1, 1000, none, none, "asc"⟩ ⟨1, 1, 1, 1000, [sampleRow]⟩ rfl rfl

/-- C3: for every validated request that succeeds, the data query runs
with bound offset (page - 1) * limit as its last parameter, and the
returned data array holds at most limit rows. -/
theorem C3_offset_and_page_size
    (raw : RawParams) (db : List TripRow) (p : QueryParams) (resp : TripsResponse)
    (hp : parseParams raw = Except.ok p)
    (hok : (handleTripsRequest raw db).outcome = Outcome.success resp) :
    (∃ cq dq, (handleTripsRequest raw db).queries = [cq, dq] ∧
      dq.params.getLast? = some ((p.page - 1) * p.limit)) ∧
    (resp.data.length : ℤ) ≤ p.limit := by
  obtain ⟨rows, sql, hlen, hrun⟩ := handle_success_run raw db p resp hp hok
  rw [hrun] at hok
  simp only [Outcome.success.injEq] at hok
  subst hok
  constructor
  · refine ⟨_, _, by rw [hrun], ?_⟩
    rcases hv : p.PULocationID with _ | v <;> simp [valuesOf]
  · have hlim : 1 ≤ p.limit := (parseParams_ok_fields raw p hp).2.2.2.2.2.2.1
    have htake : (((rows.drop ((p.page - 1) * p.limit).toNat).take p.limit.toNat)).length
        ≤ p.limit.toNat := List.length_take_le _ _
    dsimp only
    omega

/-- C3 witness: page 2 at limit 3 filtered to location 138 over a
one-row table: offset 3, empty page. -/
theorem C3_witness :
    (∃ cq dq,
      (handleTripsRequest ⟨some 2, some 3, some 138, none, none⟩ [sampleRow]).queries =
        [cq, dq] ∧
      dq.params.getLast? = some (((2 : ℤ) - 1) * 3)) ∧
    (((⟨1, 1, 2, 3, []⟩ : TripsResponse).data.length : ℤ)) ≤ (3 : ℤ) :=
  C3_offset_and_page_size ⟨some 2, some 3, some 138, none, none⟩ [sampleRow]
    ⟨2, 3, some 138, none, "asc"⟩ ⟨1, 1, 2, 3, []⟩ rfl rfl

/-- Validation with an in-pattern order value: the remaining checks do
not look at the order parameter at all. -/
theorem parseParams_valid_order (raw : RawParams) (o : String)
    (ho : orderPatternOk o = true) :
    parseParams { raw with order := some o } =
      (if raw.page.getD 1 < 1 then Except.error "page"
      else if raw.limit.getD 1000 < 1 then Except.error "limit"
      else if 10000 < raw.limit.getD 1000 then Except.error "limit"
      else if ¬ puOk raw.PULocationID then Except.error "PULocationID"
      else Except.ok
        ⟨raw.page.getD 1, raw.limit.getD 1000, raw.PULocationID, raw.sort_by, o⟩) := by
  unfold parseParams
  dsimp only
  simp [ho]

/-- C9: when sort_by is omitted the ORDER BY clause is never appended,
so two otherwise-identical valid requests differing only in their order
value produce identical runs: same outcome, same connection use, same
executed queries. -/
theorem C9_order_has_no_effect_without_sort_by
    (raw : RawParams) (db : List TripRow) (o1 o2 : String)
    (hs : raw.sort_by = none)
    (h1 : o1 = "asc" ∨ o1 = "desc") (h2 : o2 = "asc" ∨ o2 = "desc") :
    handleTripsRequest { raw with order := some o1 } db =
      handleTripsRequest { raw with order := some o2 } db := by
  have e1 : orderPatternOk o1 = true := by
    rcases h1 with h | h <;> simp [orderPatternOk, h]
  have e2 : orderPatternOk o2 = true := by
    rcases h2 with h | h <;> simp [orderPatternOk, h]
  unfold handleTripsRequest
  rw [parseParams_valid_order raw o1 e1, parseParams_valid_order raw o2 e2, hs]
  split_ifs <;> rfl

/-- C9 witness: identical runs for order asc and order desc on a
filtered, unsorted request. -/
theorem C9_witness :
    handleTripsRequest ⟨some 1, some 50, some 138, none, some "asc"⟩ [sampleRow] =
      handleTripsRequest ⟨some 1, some 50, some 138, none, some "desc"⟩ [sampleRow] :=
  C9_order_has_no_effect_without_sort_by ⟨some 1, some 50, some 138, none, none⟩ [sampleRow]
    "asc" "desc" rfl (Or.inl rfl) (Or.inr rfl)

/-- C10: a valid request whose offset reaches or passes the record
count (the empty-table case included) still succeeds, with an empty
data array and metadata reporting the count, the page count, the
requested page and the limit. -/
theorem C10_page_past_end_is_empty_success
    (raw : RawParams) (db : List TripRow) (p : QueryParams) (resp : TripsResponse)
    (hp : parseParams raw = Except.ok p)
    (hok : (handleTripsRequest raw db).outcome = Outcome.success resp)
    (hoff : ((List.filter (rowMatches p.PULocationID) db).length : ℤ) ≤
      (p.page - 1) * p.limit) :
    resp.data = [] ∧
    resp.total_records = (List.filter (rowMatches p.PULocationID) db).length ∧
    resp.total_pages = totalPagesOf resp.total_records p.limit ∧
    resp.current_page = p.page ∧
    resp.limit = p.limit := by
  obtain ⟨rows, sql, hlen, hrun⟩ := handle_success_run raw db p resp hp hok
  rw [hrun] at hok
  simp only [Outcome.success.injEq] at hok
  subst hok
  refine ⟨?_, rfl, rfl, rfl, rfl⟩
  dsimp only
  have hdrop : rows.length ≤ ((p.page - 1) * p.limit).toNat := by omega
  rw [List.drop_eq_nil_of_le hdrop, List.take_nil]

/-- C10 witness: page 2 at limit 1000 over a one-row table. -/
theorem C10_witness :
    (⟨1, 1, 2, 1000, []⟩ : TripsResponse).data = [] ∧
    (⟨1, 1, 2, 1000, []⟩ : TripsResponse).total_records =
      (List.filter (rowMatches none) [sampleRow]).length ∧
    (⟨1, 1, 2, 1000, []⟩ : TripsResponse).total_pages =
      totalPagesOf (⟨1, 1, 2, 1000, []⟩ : TripsResponse).total_records (1000 : ℤ) ∧
    (⟨1, 1, 2, 1000, []⟩ : TripsResponse).current_page = (2 : ℤ) ∧
    (⟨1, 1, 2, 1000, []⟩ : TripsResponse).limit = (1000 : ℤ) :=
  C10_page_past_end_is_empty_success ⟨some 2, some 1000, none, none, none⟩ [sampleRow]
    ⟨2, 1000, none, none, "asc"⟩ ⟨1, 1, 2, 1000, []⟩ rfl rfl (by decide)

/-- C8 witness: the 101st request within the window from one address. -/
theorem C8_witness :
    100 ≤ recentHits (List.replicate 100 ⟨"10.0.0.7", 5⟩) "10.0.0.7" 30 ∧
    tripsEndpoint (List.replicate 100 ⟨"10.0.0.7", 5⟩) "10.0.0.7" 30
        ⟨none, none, none, none, none⟩ [sampleRow] =
      { outcome := Outcome.rateLimited, connectionOpened := false, queries := [] } :=
  ⟨by decide,
   C8_rate_limited_request_does_no_work (List.replicate 100 ⟨"10.0.0.7", 5⟩) "10.0.0.7" 30
     ⟨none, none, none, none, none⟩ [sampleRow] (by decide)⟩

end TripsApi
